import Mathlib

/-!
Verification development for a single-player grid puzzle game ("barcelona").
The game places tiles on a 3x3 grid of 3x3 superblocks; each placement runs a
cascade ("rebuild phase") that applies upgrade rules until a fixed point.  The
definitions below are a shallow embedding of the source files `types.ts`,
`tiles.ts` and `gameStore.ts`.
-/

set_option maxHeartbeats 4000000
set_option maxRecDepth 100000

namespace Barcelona

/-- Base tile categories that the player can place (`BaseCategory` in types.ts). -/
inductive BaseCategory where
  | R | L | C | E
deriving DecidableEq, Repr

/-- All possible tile states (`TileType` in types.ts). -/
inductive Tile where
  | house | slums | hotel | villa | tier2_residential | highrise
  | yard | sports | plaza | park | playground | cinema
  | shop | shopping_center | restaurant | bank
  | school | highschool | university
deriving DecidableEq, Repr

/-- Map tile type to its base category (`tileToCategory` in types.ts). -/
def tileToCategory : Tile → BaseCategory
  | .house => .R
  | .slums => .R
  | .hotel => .R
  | .villa => .R
  | .tier2_residential => .R
  | .highrise => .R
  | .yard => .L
  | .sports => .L
  | .plaza => .L
  | .park => .L
  | .playground => .L
  | .cinema => .L
  | .shop => .C
  | .shopping_center => .C
  | .restaurant => .C
  | .bank => .C
  | .school => .E
  | .highschool => .E
  | .university => .E

/-- Default tile for each category when placed (`categoryToDefaultTile` in types.ts). -/
def categoryToDefaultTile : BaseCategory → Tile
  | .R => .house
  | .L => .yard
  | .C => .shop
  | .E => .school

/-- Score points for upgrades (`upgradeScores` in types.ts); a `Partial` record,
so tile kinds without an entry yield `none`. -/
def upgradeScores : Tile → Option Int
  | .slums => some (-6)
  | .hotel => some 14
  | .villa => some 18
  | .tier2_residential => some 12
  | .highrise => some 40
  | .sports => some 8
  | .plaza => some 14
  | .park => some 24
  | .shopping_center => some 16
  | .restaurant => some 20
  | .bank => some 30
  | .playground => some 4
  | .cinema => some 10
  | .highschool => some 18
  | .university => some 35
  | _ => none

/-- Position in the grid (`Position` in types.ts); every coordinate is in 0..2. -/
structure Position where
  superblockRow : Fin 3
  superblockCol : Fin 3
  cellRow : Fin 3
  cellCol : Fin 3
deriving DecidableEq, Repr, Fintype

/-- The board: what tile (if any) occupies each of the 81 cells.  The source
stores a 3x3x9 array of `TileType | null`; we model the same state as a total
function from positions to `Option Tile`. -/
def Grid := Position → Option Tile

/-- The empty board. -/
def emptyGrid : Grid := fun _ => none

/-- Unconditional overwrite of one cell (`setCell` in gameStore.ts). -/
def setCell (g : Grid) (pos : Position) (v : Option Tile) : Grid :=
  fun p => if p = pos then v else g p

/-- Read one cell (`getCell` in gameStore.ts). -/
def getCell (g : Grid) (pos : Position) : Option Tile := g pos

/-- Offset a cell coordinate pair by integers, staying inside the same
superblock; `none` when out of the 0..2 range. -/
def cellAt (pos : Position) (dr dc : Int) : Option Position :=
  let nr : Int := (pos.cellRow : Nat) + dr
  let nc : Int := (pos.cellCol : Nat) + dc
  if h : 0 ≤ nr ∧ nr < 3 ∧ 0 ≤ nc ∧ nc < 3 then
    some ⟨pos.superblockRow, pos.superblockCol,
      ⟨nr.toNat, by omega⟩, ⟨nc.toNat, by omega⟩⟩
  else
    none

/-- The N, S, W, E direction offsets used by `getAdjacentCells`. -/
def directions : List (Int × Int) := [(-1, 0), (1, 0), (0, -1), (0, 1)]

/-- Positions of the up-to-4 orthogonal neighbors, strictly within the same
superblock (the position part of `getAdjacentCells` in gameStore.ts). -/
def adjacentPositions (pos : Position) : List Position :=
  directions.filterMap fun d => cellAt pos d.1 d.2

/-- The up-to-4 orthogonal neighbors with their tiles (`getAdjacentCells`). -/
def getAdjacentCells (g : Grid) (pos : Position) : List (Position × Option Tile) :=
  (adjacentPositions pos).map fun p => (p, g p)

/-- All 9 positions of a superblock in row-major order (the position part of
`getSuperblockCells` in gameStore.ts). -/
def superblockPositions (sbRow sbCol : Fin 3) : List Position :=
  (List.finRange 3).flatMap fun r =>
    (List.finRange 3).map fun c => ⟨sbRow, sbCol, r, c⟩

/-- The 9 cells of a superblock with their tiles (`getSuperblockCells`). -/
def getSuperblockCells (g : Grid) (sbRow sbCol : Fin 3) : List (Position × Option Tile) :=
  (superblockPositions sbRow sbCol).map fun p => (p, g p)

/-- Offset a superblock coordinate pair, clipped at the macro-grid boundary. -/
def sbAt (sbRow sbCol : Fin 3) (dr dc : Int) : Option (Fin 3 × Fin 3) :=
  let nr : Int := (sbRow : Nat) + dr
  let nc : Int := (sbCol : Nat) + dc
  if h : 0 ≤ nr ∧ nr < 3 ∧ 0 ≤ nc ∧ nc < 3 then
    some (⟨nr.toNat, by omega⟩, ⟨nc.toNat, by omega⟩)
  else
    none

/-- The up-to-4 orthogonally adjacent superblocks (`getAdjacentSuperblocks`). -/
def getAdjacentSuperblocks (sbRow sbCol : Fin 3) : List (Fin 3 × Fin 3) :=
  directions.filterMap fun d => sbAt sbRow sbCol d.1 d.2

/-- Near road means at the edge of the superblock (`isNearRoad` in gameStore.ts). -/
def isNearRoad (pos : Position) : Bool :=
  pos.cellRow = 0 || pos.cellRow = 2 || pos.cellCol = 0 || pos.cellCol = 2

/-- Count cells of a given category in a superblock (`countInSuperblock`). -/
def countInSuperblock (g : Grid) (sbRow sbCol : Fin 3) (category : BaseCategory) : Nat :=
  (superblockPositions sbRow sbCol).countP fun p =>
    match g p with
    | some t => tileToCategory t == category
    | none => false

/-- Count cells of an exact tile kind in a superblock (`countTileTypeInSuperblock`). -/
def countTileTypeInSuperblock (g : Grid) (sbRow sbCol : Fin 3) (tileType : Tile) : Nat :=
  (superblockPositions sbRow sbCol).countP fun p => g p == some tileType

/-- Category count summed over the adjacent superblocks (`countInAdjacentSuperblocks`). -/
def countInAdjacentSuperblocks (g : Grid) (sbRow sbCol : Fin 3) (category : BaseCategory) : Nat :=
  (getAdjacentSuperblocks sbRow sbCol).foldl
    (fun acc sb => acc + countInSuperblock g sb.1 sb.2 category) 0

/-- Tile-kind count summed over the adjacent superblocks
(`countTileTypeInAdjacentSuperblocks`). -/
def countTileTypeInAdjacentSuperblocks (g : Grid) (sbRow sbCol : Fin 3) (tileType : Tile) : Nat :=
  (getAdjacentSuperblocks sbRow sbCol).foldl
    (fun acc sb => acc + countTileTypeInSuperblock g sb.1 sb.2 tileType) 0

/-- Weighted residential count over adjacent superblocks: tier-2 residential and
highrise count 4, every other residential tile counts 1
(`countResidentialValueInAdjacentSuperblocks`). -/
def countResidentialValueInAdjacentSuperblocks (g : Grid) (sbRow sbCol : Fin 3) : Nat :=
  (getAdjacentSuperblocks sbRow sbCol).foldl
    (fun acc sb =>
      (superblockPositions sb.1 sb.2).foldl
        (fun acc2 p =>
          match g p with
          | some t =>
            if tileToCategory t = .R then
              if t = .tier2_residential ∨ t = .highrise then acc2 + 4 else acc2 + 1
            else acc2
          | none => acc2) acc) 0

/-- Condition result for upgrade checks (`ConditionResult` in types.ts). -/
structure ConditionResult where
  met : Bool
  desc : String
deriving DecidableEq, Repr

/-- Result of one upgrade check (`UpgradeResult` in types.ts). -/
inductive UpgradeResult where
  | cannot_upgrade
  | can_upgrade (conditions : List ConditionResult)
deriving DecidableEq, Repr

/-- An upgrade candidate is satisfied when it is applicable and every condition
in its list is met (the `verdict === can_upgrade && conditions.every(c => c.met)`
test of the cascade loop). -/
def isSatisfied : Option UpgradeResult → Bool
  | some (.can_upgrade conditions) => conditions.all (fun c => c.met)
  | _ => false

/-- Worklist form of the depth-first search of `findConnectedCommercialCluster`
in tiles.ts: visit a pending position; positions already visited, empty cells
and non-commercial cells are discarded (only visited commercial cells enter the
visited list); a newly visited commercial cell pushes its orthogonal neighbors.
The fuel argument only bounds the recursion; 1000 exceeds the maximum possible
number of worklist entries (1 start + 4 pushes for each of at most 81 visits). -/
def dfsAux (g : Grid) : Nat → List Position → List Position → List Position
  | 0, _, visited => visited
  | _ + 1, [], visited => visited
  | fuel + 1, p :: pending, visited =>
    if p ∈ visited then dfsAux g fuel pending visited
    else
      match g p with
      | none => dfsAux g fuel pending visited
      | some t =>
        if tileToCategory t = .C then
          dfsAux g fuel (adjacentPositions p ++ pending) (visited ++ [p])
        else dfsAux g fuel pending visited

/-- The set of cells visited by the commercial-cluster DFS started at `startPos`. -/
def clusterVisited (startPos : Position) (g : Grid) : List Position :=
  dfsAux g 1000 [startPos] []

/-- DFS to find connected commercial tiles and check whether the cluster touches
the road (`findConnectedCommercialCluster` in tiles.ts): the cluster size is the
number of visited cells, and `touchesRoad` is set when some visited cell is near
the road. -/
def findConnectedCommercialCluster (startPos : Position) (g : Grid) : Nat × Bool :=
  let visited := clusterVisited startPos g
  (visited.length, visited.any fun p => isNearRoad p)

/-- Whether some orthogonal neighbor holds exactly a shopping center (the
`adjacent.some(a => a.tile === shopping_center)` test used by the shopping
center and cinema rules). -/
def hasAdjacentShoppingCenter (g : Grid) (pos : Position) : Bool :=
  (getAdjacentCells g pos).any fun a => a.2 == some Tile.shopping_center

/-- Helper to check whether a position is part of a 2x2 leisure square
(`checkLeisureSquare` in tiles.ts): four candidate windows are tested, each must
stay inside the superblock and contain only leisure tiles. -/
def checkLeisureSquare (pos : Position) (g : Grid) : Bool :=
  let offsets : List (List (Int × Int)) :=
    [ [(0, 0), (0, 1), (1, 0), (1, 1)],
      [(0, -1), (0, 0), (1, -1), (1, 0)],
      [(-1, 0), (-1, 1), (0, 0), (0, 1)],
      [(-1, -1), (-1, 0), (0, -1), (0, 0)] ]
  offsets.any fun square =>
    square.all fun d =>
      match cellAt pos d.1 d.2 with
      | none => false
      | some p =>
        match g p with
        | some t => tileToCategory t == .L
        | none => false

/-- Residential upgrade checks (`residentialUpgrades` in tiles.ts), as a map
from target tile kind to the evaluated check; `none` for kinds the residential
family has no rule for. -/
def residentialUpgrades (pos : Position) (g : Grid) : Tile → Option UpgradeResult
  | .slums => some <|
    match g pos with
    | some .house =>
      let rCount := countInSuperblock g pos.superblockRow pos.superblockCol .R
      let lCount := countInSuperblock g pos.superblockRow pos.superblockCol .L
      let eCount := countInSuperblock g pos.superblockRow pos.superblockCol .E
      .can_upgrade
        [ ⟨decide (rCount ≥ 4), "Residential >= 4 in block"⟩,
          ⟨decide (lCount = 0 ∧ eCount = 0), "No Leisure or Education in block"⟩ ]
    | _ => .cannot_upgrade
  | .hotel => some <|
    match g pos with
    | some .house =>
      let cCount := countInSuperblock g pos.superblockRow pos.superblockCol .C
      let rCount := countInSuperblock g pos.superblockRow pos.superblockCol .R
      .can_upgrade
        [ ⟨decide (cCount ≥ 3), "Commercial >= 3 in block"⟩,
          ⟨decide (rCount < 3), "Residential < 3 in block"⟩ ]
    | _ => .cannot_upgrade
  | .villa => some <|
    match g pos with
    | some .house =>
      let hasAdjacentLeisure := (getAdjacentCells g pos).any fun a =>
        match a.2 with
        | some t => tileToCategory t == .L
        | none => false
      .can_upgrade
        [ ⟨hasAdjacentLeisure, "Adjacent to Leisure"⟩,
          ⟨!isNearRoad pos, "Not near road"⟩ ]
    | _ => .cannot_upgrade
  | .tier2_residential => some <|
    match g pos with
    | some t =>
      if t = .house ∨ t = .slums then
        let rCount := countInSuperblock g pos.superblockRow pos.superblockCol .R
        let lCount := countInSuperblock g pos.superblockRow pos.superblockCol .L
        let cCount := countInSuperblock g pos.superblockRow pos.superblockCol .C
        let eCount := countInSuperblock g pos.superblockRow pos.superblockCol .E
        .can_upgrade
          [ ⟨decide (rCount ≥ 3), "Residential >= 3 in block"⟩,
            ⟨decide (lCount ≥ 1), "Leisure >= 1 in block"⟩,
            ⟨decide (cCount ≥ 1), "Commercial >= 1 in block"⟩,
            ⟨decide (eCount ≥ 1), "Education >= 1 in block"⟩ ]
      else .cannot_upgrade
    | none => .cannot_upgrade
  | .highrise => some <|
    match g pos with
    | some .tier2_residential =>
      let hasShoppingCenter :=
        countTileTypeInAdjacentSuperblocks g pos.superblockRow pos.superblockCol
          .shopping_center > 0
      let residentialValue :=
        countResidentialValueInAdjacentSuperblocks g pos.superblockRow pos.superblockCol
      let eCount := countInSuperblock g pos.superblockRow pos.superblockCol .E
      let lCount := countInSuperblock g pos.superblockRow pos.superblockCol .L
      .can_upgrade
        [ ⟨decide hasShoppingCenter, "Shopping Center in adjacent blocks"⟩,
          ⟨decide (residentialValue ≥ 20), "Residential value >= 20 in adjacent blocks"⟩,
          ⟨decide (eCount ≥ 1), "Education >= 1 in block"⟩,
          ⟨decide (lCount ≥ 3), "Leisure >= 3 in block"⟩ ]
    | _ => .cannot_upgrade
  | _ => none

/-- Leisure upgrade checks (`leisureUpgrades` in tiles.ts). -/
def leisureUpgrades (pos : Position) (g : Grid) : Tile → Option UpgradeResult
  | .sports => some <|
    match g pos with
    | some t =>
      if t = .yard ∨ t = .playground then
        let adjacentLeisureCount := ((getAdjacentCells g pos).filter fun a =>
          match a.2 with
          | some t2 => tileToCategory t2 == .L
          | none => false).length
        .can_upgrade [⟨decide (adjacentLeisureCount ≥ 2), "2 or more adjacent Leisure"⟩]
      else .cannot_upgrade
    | none => .cannot_upgrade
  | .playground => some <|
    match g pos with
    | some .yard =>
      let hasAdjacentEducation := (getAdjacentCells g pos).any fun a =>
        match a.2 with
        | some t => tileToCategory t == .E
        | none => false
      .can_upgrade [⟨hasAdjacentEducation, "Adjacent to Education"⟩]
    | _ => .cannot_upgrade
  | .plaza => some <|
    match g pos with
    | some t =>
      if t = .yard ∨ t = .sports ∨ t = .playground then
        .can_upgrade [⟨checkLeisureSquare pos g, "Part of 2x2 Leisure square"⟩]
      else .cannot_upgrade
    | none => .cannot_upgrade
  | .park => some <|
    match g pos with
    | some t =>
      if tileToCategory t = .L ∧ t ≠ .cinema then
        let lCount := countInSuperblock g pos.superblockRow pos.superblockCol .L
        .can_upgrade [⟨decide (lCount ≥ 7), "Leisure >= 7 in block"⟩]
      else .cannot_upgrade
    | none => .cannot_upgrade
  | .cinema => some <|
    match g pos with
    | some t =>
      if t = .yard ∨ t = .sports ∨ t = .playground ∨ t = .plaza then
        .can_upgrade [⟨hasAdjacentShoppingCenter g pos, "Adjacent to Shopping Center"⟩]
      else .cannot_upgrade
    | none => .cannot_upgrade
  | _ => none

/-- Commercial upgrade checks (`commercialUpgrades` in tiles.ts). -/
def commercialUpgrades (pos : Position) (g : Grid) : Tile → Option UpgradeResult
  | .shopping_center => some <|
    match g pos with
    | some .shop =>
      let hasAdjacent := hasAdjacentShoppingCenter g pos
      let cluster := findConnectedCommercialCluster pos g
      let clusterValid := decide (cluster.1 ≥ 3) && cluster.2
      .can_upgrade [⟨hasAdjacent || clusterValid, "Adjacent Shopping Center or 3 plus cluster touching road"⟩]
    | _ => .cannot_upgrade
  | .restaurant => some <|
    match g pos with
    | some .shop =>
      let hasAdjacentCommercial := (getAdjacentCells g pos).any fun a =>
        match a.2 with
        | some t => tileToCategory t == .C
        | none => false
      let blockResidential := countInSuperblock g pos.superblockRow pos.superblockCol .R
      let adjacentBlocksResidential :=
        countInAdjacentSuperblocks g pos.superblockRow pos.superblockCol .R
      let totalResidential := blockResidential + adjacentBlocksResidential
      .can_upgrade
        [ ⟨hasAdjacentCommercial, "Has adjacent Commercial"⟩,
          ⟨decide (totalResidential ≥ 10), "Total Residential >= 10 in block and adjacent"⟩ ]
    | _ => .cannot_upgrade
  | .bank => some <|
    match g pos with
    | some .shop =>
      let tier2Count :=
        countTileTypeInAdjacentSuperblocks g pos.superblockRow pos.superblockCol
          .tier2_residential
      .can_upgrade [⟨decide (tier2Count ≥ 4), "4 or more Tier-2 Residential in adjacent blocks"⟩]
    | _ => .cannot_upgrade
  | _ => none

/-- Education upgrade checks (`educationUpgrades` in tiles.ts). -/
def educationUpgrades (pos : Position) (g : Grid) : Tile → Option UpgradeResult
  | .highschool => some <|
    match g pos with
    | some .school =>
      let residentialInAdjBlocks :=
        countInAdjacentSuperblocks g pos.superblockRow pos.superblockCol .R
      let schoolsInAdjBlocks :=
        countTileTypeInAdjacentSuperblocks g pos.superblockRow pos.superblockCol .school
          + countTileTypeInAdjacentSuperblocks g pos.superblockRow pos.superblockCol .highschool
          + countTileTypeInAdjacentSuperblocks g pos.superblockRow pos.superblockCol .university
      .can_upgrade
        [ ⟨decide (residentialInAdjBlocks ≥ 20), "20 or more Residential in adjacent blocks"⟩,
          ⟨decide (schoolsInAdjBlocks ≥ 1), "Another school in adjacent blocks"⟩ ]
    | _ => .cannot_upgrade
  | .university => some <|
    match g pos with
    | some t =>
      if t = .school ∨ t = .highschool then
        let eCount := countInSuperblock g pos.superblockRow pos.superblockCol .E
        .can_upgrade [⟨decide (eCount ≥ 4), "4 or more Education in block"⟩]
      else .cannot_upgrade
    | none => .cannot_upgrade
  | _ => none

/-- Slums can revert to house when leisure or education appears in the block
(`slumsDowngrade` in tiles.ts). -/
def slumsDowngrade (pos : Position) (g : Grid) : Tile → Option UpgradeResult
  | .house => some <|
    match g pos with
    | some .slums =>
      let lCount := countInSuperblock g pos.superblockRow pos.superblockCol .L
      let eCount := countInSuperblock g pos.superblockRow pos.superblockCol .E
      .can_upgrade [⟨decide (lCount > 0 ∨ eCount > 0), "Leisure or Education added to block"⟩]
    | _ => .cannot_upgrade
  | _ => none

/-- Get all possible upgrades for a tile at a position (`getUpgradesForTile` in
tiles.ts): dispatch on the tile's category, and merge in the slums downgrade
when the current tile is slums. -/
def getUpgradesForTile (tile : Tile) (pos : Position) (g : Grid) : Tile → Option UpgradeResult :=
  fun target =>
    let base :=
      match tileToCategory tile with
      | .R => residentialUpgrades pos g target
      | .L => leisureUpgrades pos g target
      | .C => commercialUpgrades pos g target
      | .E => educationUpgrades pos g target
    if tile = .slums then
      match slumsDowngrade pos g target with
      | some r => some r
      | none => base
    else base

/-- Priority order for upgrades (`upgradePriority` in tiles.ts): highest tier
first, Sports before Playground, house is the slums downgrade target. -/
def upgradePriority : List Tile :=
  [ .highrise, .park, .bank, .university,
    .tier2_residential, .shopping_center, .restaurant, .plaza, .cinema, .highschool,
    .villa, .hotel, .sports, .playground,
    .house,
    .slums ]

/-- The priority resolver (the candidate-selection loop inside
`runRebuildPhase` in gameStore.ts): walk `upgradePriority`, skip the entry equal
to the current tile, and select the first candidate whose conditions all hold. -/
def selectUpgrade (currentTile : Tile) (pos : Position) (g : Grid) : Option Tile :=
  upgradePriority.find? fun upgradeTile =>
    upgradeTile != currentTile && isSatisfied (getUpgradesForTile currentTile pos g upgradeTile)

/-- Ceiling on applied changes per rebuild phase (`MAX_UPGRADES` in gameStore.ts). -/
def MAX_UPGRADES : Nat := 10000

/-- Total number of cells (`TOTAL_CELLS` in gameStore.ts). -/
def TOTAL_CELLS : Nat := 81

/-- The positions enqueued after a change at `pos` (the three enqueue loops plus
the final `queue.push(pos)` of `runRebuildPhase`): the orthogonal neighbors, all
9 cells of the changed cell's superblock, all cells of every orthogonally
adjacent superblock, and the changed position itself. -/
def cascadeEnqueue (pos : Position) : List Position :=
  adjacentPositions pos
    ++ superblockPositions pos.superblockRow pos.superblockCol
    ++ ((getAdjacentSuperblocks pos.superblockRow pos.superblockCol).flatMap fun sb =>
          superblockPositions sb.1 sb.2)
    ++ [pos]

/-- Outcome of a rebuild phase: normal completion (with the final board, score
and pass-scoped visited set) or the fatal `MAX_UPGRADES` abort, which leaves the
board partially updated. -/
inductive RebuildResult where
  | ok (g : Grid) (score : Int) (visited : List Position)
  | fatal (g : Grid) (score : Int)

/-- The board left behind by a rebuild phase, fatal or not. -/
def resultGrid : RebuildResult → Grid
  | .ok g _ _ => g
  | .fatal g _ => g

/-- The fixed-point propagation loop of `runRebuildPhase` in gameStore.ts.
Pop a position in FIFO order; skip it if already visited this pass; mark empty
cells visited; otherwise run the priority resolver.  On no change, mark the
position visited; on a change, overwrite the cell, add the new kind's point
delta (missing score entries count 0), clear the visited set and enqueue
`cascadeEnqueue pos`.  The fatal ceiling is checked at the top of each
iteration.  The source loop needs no fuel (every iteration either shortens the
queue or increments the change counter, which is capped); here `fuel` bounds
the number of iterations, and `none` means the model ran out of fuel. -/
def rebuildLoop : Nat → Grid → Int → Nat → List Position → List Position →
    Option RebuildResult
  | 0, _, _, _, _, _ => none
  | _ + 1, g, score, _, [], visited => some (.ok g score visited)
  | fuel + 1, g, score, upgradeCount, pos :: rest, visited =>
    if MAX_UPGRADES ≤ upgradeCount then some (.fatal g score)
    else if pos ∈ visited then rebuildLoop fuel g score upgradeCount rest visited
    else
      match g pos with
      | none => rebuildLoop fuel g score upgradeCount rest (pos :: visited)
      | some currentTile =>
        match selectUpgrade currentTile pos g with
        | none => rebuildLoop fuel g score upgradeCount rest (pos :: visited)
        | some appliedUpgrade =>
          rebuildLoop fuel (setCell g pos (some appliedUpgrade))
            (score + ((upgradeScores appliedUpgrade).getD 0))
            (upgradeCount + 1) (rest ++ cascadeEnqueue pos) []

/-- Run the rebuild phase starting from a placed position (`runRebuildPhase`):
seed the queue with all 9 cells of the placed cell's superblock, empty visited
set, zero applied changes. -/
def runRebuildPhase (fuel : Nat) (g : Grid) (score : Int) (startPos : Position) :
    Option RebuildResult :=
  rebuildLoop fuel g score 0
    (superblockPositions startPos.superblockRow startPos.superblockCol) []

/-- Game session state (the observable fields of the store in gameStore.ts).
The deck is the ordered source of upcoming tile categories; the random refill
is an external collaborator, so the model only consumes the deck. -/
structure GameState where
  grid : Grid
  deck : List BaseCategory
  score : Int
  turn : Nat

/-- Result of a placement attempt: `rejected` models the `return false` paths
(no state mutated), `placed` models `return true` after a completed rebuild
phase, `fatal` models the thrown `MAX_UPGRADES` error, and `outOfFuel` is a
model artifact of the bounded loop. -/
inductive PlaceResult where
  | rejected (s : GameState)
  | placed (s : GameState) (visited : List Position)
  | fatal (s : GameState)
  | outOfFuel

/-- Place a tile at a position (`placeTile` in gameStore.ts): reject when the
cell is occupied or no category is available; otherwise draw the next category,
write its default tile, bump the turn counter and run the rebuild phase. -/
def placeTile (fuel : Nat) (s : GameState) (pos : Position) : PlaceResult :=
  match s.grid pos with
  | some _ => .rejected s
  | none =>
    match s.deck with
    | [] => .rejected s
    | category :: deckRest =>
      let tile := categoryToDefaultTile category
      let g1 := setCell s.grid pos (some tile)
      match runRebuildPhase fuel g1 s.score pos with
      | none => .outOfFuel
      | some (.ok g2 score2 visited) => .placed ⟨g2, deckRest, score2, s.turn + 1⟩ visited
      | some (.fatal g2 score2) => .fatal ⟨g2, deckRest, score2, s.turn + 1⟩

/-- Play a sequence of placements; `some` only when every placement returns
`true` and completes non-fatally. -/
def playSeq (fuel : Nat) : GameState → List Position → Option GameState
  | s, [] => some s
  | s, p :: ps =>
    match placeTile fuel s p with
    | .placed s2 _ => playSeq fuel s2 ps
    | _ => none

/-- All 81 positions, in the iteration order of the store's triple loops. -/
def allPositions : List Position :=
  (List.finRange 3).flatMap fun sr =>
    (List.finRange 3).flatMap fun sc => superblockPositions sr sc

/-- Number of occupied cells (`cellsFilled` in gameStore.ts). -/
def cellsFilled (s : GameState) : Nat :=
  (allPositions.filter fun p => (s.grid p).isSome).length

/-- Terminal-state query (`isGameOver` in gameStore.ts): all cells filled. -/
def isGameOver (s : GameState) : Bool :=
  TOTAL_CELLS ≤ cellsFilled s

/-- A cell is stable (at a fixed point of the resolver) when it is empty or the
resolver selects no upgrade for its occupying tile. -/
def stable (g : Grid) (p : Position) : Prop :=
  ∀ t, g p = some t → selectUpgrade t p g = none

/-- Convenience constructor for concrete boards. -/
def gridOf (cells : List (Position × Tile)) : Grid :=
  fun p => (cells.find? fun c => c.1 = p).map fun c => c.2

/-! ### Helper lemmas -/

theorem mem_superblockPositions {p : Position} {r c : Fin 3} :
    p ∈ superblockPositions r c ↔ p.superblockRow = r ∧ p.superblockCol = c := by
  constructor
  · intro h
    simp only [superblockPositions, List.mem_flatMap, List.mem_map] at h
    obtain ⟨cr, -, cc, -, rfl⟩ := h
    exact ⟨rfl, rfl⟩
  · rintro ⟨hr, hc⟩
    simp only [superblockPositions, List.mem_flatMap, List.mem_map]
    exact ⟨p.cellRow, List.mem_finRange _, p.cellCol, List.mem_finRange _, by
      cases p; simp_all⟩

theorem residentialUpgrades_category {pos : Position} {g : Grid} {k : Tile} {r : UpgradeResult}
    (h : residentialUpgrades pos g k = some r) : tileToCategory k = .R := by
  cases k <;> first | rfl | exact Option.noConfusion h

theorem leisureUpgrades_category {pos : Position} {g : Grid} {k : Tile} {r : UpgradeResult}
    (h : leisureUpgrades pos g k = some r) : tileToCategory k = .L := by
  cases k <;> first | rfl | exact Option.noConfusion h

theorem commercialUpgrades_category {pos : Position} {g : Grid} {k : Tile} {r : UpgradeResult}
    (h : commercialUpgrades pos g k = some r) : tileToCategory k = .C := by
  cases k <;> first | rfl | exact Option.noConfusion h

theorem educationUpgrades_category {pos : Position} {g : Grid} {k : Tile} {r : UpgradeResult}
    (h : educationUpgrades pos g k = some r) : tileToCategory k = .E := by
  cases k <;> first | rfl | exact Option.noConfusion h

theorem slumsDowngrade_category {pos : Position} {g : Grid} {k : Tile} {r : UpgradeResult}
    (h : slumsDowngrade pos g k = some r) : tileToCategory k = .R := by
  cases k <;> first | rfl | exact Option.noConfusion h

/-- Every key present in a tile's candidate map has the same base category as
the tile: the rule families only target kinds of their own category, and the
slums downgrade targets the (residential) house kind. -/
theorem getUpgradesForTile_category {t : Tile} {pos : Position} {g : Grid} {k : Tile}
    {r : UpgradeResult} (h : getUpgradesForTile t pos g k = some r) :
    tileToCategory k = tileToCategory t := by
  by_cases ht : t = .slums
  · subst ht
    simp only [getUpgradesForTile, if_pos rfl] at h
    cases hd : slumsDowngrade pos g k with
    | some r2 => exact slumsDowngrade_category hd
    | none =>
      rw [hd] at h
      exact residentialUpgrades_category h
  · simp only [getUpgradesForTile, if_neg ht] at h
    cases htc : tileToCategory t <;> rw [htc] at h
    · exact residentialUpgrades_category h
    · exact leisureUpgrades_category h
    · exact commercialUpgrades_category h
    · exact educationUpgrades_category h

/-- The resolver only returns a kind whose candidate is present and satisfied,
and which differs from the current kind. -/
theorem selectUpgrade_inv {t : Tile} {pos : Position} {g : Grid} {k : Tile}
    (h : selectUpgrade t pos g = some k) :
    k ≠ t ∧ isSatisfied (getUpgradesForTile t pos g k) = true := by
  have hp := List.find?_some h
  simp only [Bool.and_eq_true, bne_iff_ne] at hp
  exact hp

theorem isSatisfied_isSome {o : Option UpgradeResult} (h : isSatisfied o = true) :
    ∃ r, o = some r := by
  cases o with
  | none => exact absurd h (by simp [isSatisfied])
  | some r => exact ⟨r, rfl⟩

/-- The resolver preserves the base category of the tile it upgrades. -/
theorem selectUpgrade_category {t : Tile} {pos : Position} {g : Grid} {k : Tile}
    (h : selectUpgrade t pos g = some k) : tileToCategory k = tileToCategory t := by
  obtain ⟨-, hsat⟩ := selectUpgrade_inv h
  obtain ⟨r, hr⟩ := isSatisfied_isSome hsat
  exact getUpgradesForTile_category hr

/-- Invariant of the propagation loop: when the loop returns normally, every
position in the final visited set is stable with respect to the final board.
Positions are only added to the visited set right after the resolver declined
them (or because they are empty), and every board change clears the set, so the
whole final set was validated against the final board. -/
theorem rebuildLoop_ok_stable :
    ∀ (fuel : Nat) (g : Grid) (score : Int) (cnt : Nat) (queue vis : List Position)
      (g2 : Grid) (s2 : Int) (vis2 : List Position),
      rebuildLoop fuel g score cnt queue vis = some (.ok g2 s2 vis2) →
      (∀ p ∈ vis, stable g p) →
      ∀ p ∈ vis2, stable g2 p := by
  intro fuel
  induction fuel with
  | zero =>
    intro g score cnt queue vis g2 s2 vis2 h _
    exact Option.noConfusion h
  | succ n ih =>
    intro g score cnt queue vis g2 s2 vis2 h hvis
    cases queue with
    | nil =>
      simp only [rebuildLoop, Option.some.injEq] at h
      cases h
      exact hvis
    | cons pos rest =>
      simp only [rebuildLoop] at h
      by_cases hmax : MAX_UPGRADES ≤ cnt
      · rw [if_pos hmax] at h
        simp at h
      · rw [if_neg hmax] at h
        by_cases hmem : pos ∈ vis
        · rw [if_pos hmem] at h
          exact ih _ _ _ _ _ _ _ _ h hvis
        · rw [if_neg hmem] at h
          cases hgp : g pos with
          | none =>
            rw [hgp] at h
            refine ih _ _ _ _ _ _ _ _ h ?_
            intro p hp
            rcases List.mem_cons.mp hp with rfl | hp2
            · intro t ht
              rw [hgp] at ht
              exact Option.noConfusion ht
            · exact hvis p hp2
          | some currentTile =>
            simp only [hgp] at h
            cases hsel : selectUpgrade currentTile pos g with
            | none =>
              rw [hsel] at h
              refine ih _ _ _ _ _ _ _ _ h ?_
              intro p hp
              rcases List.mem_cons.mp hp with rfl | hp2
              · intro t ht
                rw [hgp] at ht
                cases ht
                exact hsel
              · exact hvis p hp2
            | some k =>
              rw [hsel] at h
              exact ih _ _ _ _ _ _ _ _ h (by intro p hp; simp at hp)

/-- Invariant of the propagation loop: every applied change preserves the base
category of the changed cell, so occupied cells keep their category through a
whole rebuild phase (fatal or not), and no occupied cell is ever emptied. -/
theorem rebuildLoop_preserves_category :
    ∀ (fuel : Nat) (g : Grid) (score : Int) (cnt : Nat) (queue vis : List Position)
      (res : RebuildResult),
      rebuildLoop fuel g score cnt queue vis = some res →
      ∀ p t0, g p = some t0 →
        ∃ t1, resultGrid res p = some t1 ∧ tileToCategory t1 = tileToCategory t0 := by
  intro fuel
  induction fuel with
  | zero =>
    intro g score cnt queue vis res h
    exact Option.noConfusion h
  | succ n ih =>
    intro g score cnt queue vis res h
    cases queue with
    | nil =>
      simp only [rebuildLoop, Option.some.injEq] at h
      intro p t0 hp
      exact ⟨t0, by rw [← h, resultGrid, hp], rfl⟩
    | cons pos rest =>
      simp only [rebuildLoop] at h
      by_cases hmax : MAX_UPGRADES ≤ cnt
      · rw [if_pos hmax] at h
        intro p t0 hp
        simp only [Option.some.injEq] at h
        exact ⟨t0, by rw [← h, resultGrid, hp], rfl⟩
      · rw [if_neg hmax] at h
        by_cases hmem : pos ∈ vis
        · rw [if_pos hmem] at h
          exact ih _ _ _ _ _ _ h
        · rw [if_neg hmem] at h
          cases hgp : g pos with
          | none =>
            rw [hgp] at h
            exact ih _ _ _ _ _ _ h
          | some currentTile =>
            simp only [hgp] at h
            cases hsel : selectUpgrade currentTile pos g with
            | none =>
              rw [hsel] at h
              exact ih _ _ _ _ _ _ h
            | some k =>
              rw [hsel] at h
              intro p t0 hp
              have hcat : tileToCategory k = tileToCategory currentTile :=
                selectUpgrade_category hsel
              by_cases hpp : p = pos
              · have ht0 : currentTile = t0 := by
                  rw [hpp, hgp] at hp
                  exact Option.some.inj hp
                obtain ⟨t1, h1, h2⟩ := ih _ _ _ _ _ _ h p k (by simp [setCell, hpp])
                exact ⟨t1, h1, by rw [h2, hcat, ht0]⟩
              · obtain ⟨t1, h1, h2⟩ := ih _ _ _ _ _ _ h p t0 (by simp [setCell, hpp, hp])
                exact ⟨t1, h1, h2⟩

/-- Inversion for the hotel rule: a satisfied hotel candidate (for any current
tile) forces the cell to hold a house, at least 3 commercial in the block and
strictly fewer than 3 residential in the block. -/
theorem residentialUpgrades_hotel_satisfied {pos : Position} {g : Grid}
    (h : isSatisfied (residentialUpgrades pos g .hotel) = true) :
    g pos = some .house ∧
      3 ≤ countInSuperblock g pos.superblockRow pos.superblockCol .C ∧
      countInSuperblock g pos.superblockRow pos.superblockCol .R < 3 := by
  cases hgp : g pos with
  | none => simp [residentialUpgrades, hgp, isSatisfied] at h
  | some t2 =>
    cases t2 <;> simp_all [residentialUpgrades, isSatisfied]

theorem hotel_satisfied {t : Tile} {pos : Position} {g : Grid}
    (h : isSatisfied (getUpgradesForTile t pos g .hotel) = true) :
    g pos = some .house ∧
      3 ≤ countInSuperblock g pos.superblockRow pos.superblockCol .C ∧
      countInSuperblock g pos.superblockRow pos.superblockCol .R < 3 := by
  by_cases ht : t = .slums
  · subst ht
    have hb : getUpgradesForTile .slums pos g .hotel = residentialUpgrades pos g .hotel := rfl
    rw [hb] at h
    exact residentialUpgrades_hotel_satisfied h
  · simp only [getUpgradesForTile, if_neg ht] at h
    cases htc : tileToCategory t <;> rw [htc] at h
    · exact residentialUpgrades_hotel_satisfied h
    · simp [leisureUpgrades, isSatisfied] at h
    · simp [commercialUpgrades, isSatisfied] at h
    · simp [educationUpgrades, isSatisfied] at h

/-- Inversion for the playground rule: a satisfied playground candidate forces
the cell to hold a yard (the only source kind of the playground upgrade). -/
theorem leisureUpgrades_playground_satisfied {pos : Position} {g : Grid}
    (h : isSatisfied (leisureUpgrades pos g .playground) = true) :
    g pos = some .yard := by
  cases hgp : g pos with
  | none => simp [leisureUpgrades, hgp, isSatisfied] at h
  | some t2 =>
    cases t2 <;> simp_all [leisureUpgrades, isSatisfied]

theorem playground_satisfied {t : Tile} {pos : Position} {g : Grid}
    (h : isSatisfied (getUpgradesForTile t pos g .playground) = true) :
    g pos = some .yard := by
  by_cases ht : t = .slums
  · subst ht
    have hb : getUpgradesForTile .slums pos g .playground = residentialUpgrades pos g .playground :=
      rfl
    rw [hb] at h
    simp [residentialUpgrades, isSatisfied] at h
  · simp only [getUpgradesForTile, if_neg ht] at h
    cases htc : tileToCategory t <;> rw [htc] at h
    · simp [residentialUpgrades, isSatisfied] at h
    · exact leisureUpgrades_playground_satisfied h
    · simp [commercialUpgrades, isSatisfied] at h
    · simp [educationUpgrades, isSatisfied] at h

/-! ### Concrete boards and runs used by the claim theorems -/

/-- Region with 7 leisure tiles where the center yard is simultaneously
eligible for Sports (2 adjacent leisure), Playground (adjacent education) and
Park (7 leisure in block). -/
def parkEligibleGrid : Grid :=
  gridOf
    [ (⟨0, 0, 0, 0⟩, .yard), (⟨0, 0, 0, 1⟩, .yard), (⟨0, 0, 0, 2⟩, .yard),
      (⟨0, 0, 1, 0⟩, .yard), (⟨0, 0, 1, 1⟩, .yard),
      (⟨0, 0, 2, 0⟩, .yard), (⟨0, 0, 2, 1⟩, .yard),
      (⟨0, 0, 1, 2⟩, .school) ]

/-- Board whose region (0,0) contains exactly 3 houses and nothing else. -/
def threeHousesGrid : Grid :=
  gridOf [(⟨0, 0, 0, 0⟩, .house), (⟨0, 0, 0, 1⟩, .house), (⟨0, 0, 0, 2⟩, .house)]

/-- A row cluster of 3 shops in region (0,0) together with 4 tier-2 residential
tiles in the adjacent region (0,1): both the shopping-center rule and the
higher-priority bank rule are satisfied for each shop. -/
def bankPreemptGrid : Grid :=
  gridOf
    [ (⟨0, 0, 0, 0⟩, .shop), (⟨0, 0, 0, 1⟩, .shop), (⟨0, 0, 0, 2⟩, .shop),
      (⟨0, 1, 0, 0⟩, .tier2_residential), (⟨0, 1, 0, 1⟩, .tier2_residential),
      (⟨0, 1, 0, 2⟩, .tier2_residential), (⟨0, 1, 1, 0⟩, .tier2_residential) ]

/-- Three isolated shops and a house: hotel conditions hold (C = 3, R = 1 < 3). -/
def hotelGrid : Grid :=
  gridOf
    [ (⟨0, 0, 0, 0⟩, .shop), (⟨0, 0, 0, 2⟩, .shop), (⟨0, 0, 2, 1⟩, .shop),
      (⟨0, 0, 1, 1⟩, .house) ]

/-- Three isolated shops and three houses: C = 3 but R = 3, so the hotel
bound `R < 3` fails. -/
def hotelBlockedGrid : Grid :=
  gridOf
    [ (⟨0, 0, 0, 0⟩, .shop), (⟨0, 0, 0, 2⟩, .shop), (⟨0, 0, 2, 1⟩, .shop),
      (⟨0, 0, 1, 1⟩, .house), (⟨0, 0, 1, 0⟩, .house), (⟨0, 0, 1, 2⟩, .house) ]

/-- A fully occupied board. -/
def fullGrid : Grid := fun _ => some .house

/-- Four houses alone in region (0,0): each one satisfies the slums rule. -/
def fourHousesGrid : Grid :=
  gridOf
    [ (⟨0, 0, 0, 0⟩, .house), (⟨0, 0, 0, 1⟩, .house),
      (⟨0, 0, 0, 2⟩, .house), (⟨0, 0, 1, 0⟩, .house) ]

/-- A single yard in an otherwise empty board. -/
def oneYardGrid : Grid := gridOf [(⟨0, 0, 0, 0⟩, .yard)]

/-- Two connected shops on the region edge: cluster of size 2 touching the road. -/
def twoShopsGrid : Grid := gridOf [(⟨0, 0, 0, 0⟩, .shop), (⟨0, 0, 0, 1⟩, .shop)]

/-- Three connected shops on the region edge: cluster of size 3 touching the road. -/
def threeShopsGrid : Grid :=
  gridOf [(⟨0, 0, 0, 0⟩, .shop), (⟨0, 0, 0, 1⟩, .shop), (⟨0, 0, 0, 2⟩, .shop)]

/-- A shop orthogonally adjacent to an existing shopping center. -/
def nextToMallGrid : Grid :=
  gridOf [(⟨0, 0, 0, 0⟩, .shopping_center), (⟨0, 0, 0, 1⟩, .shop)]

/-- Four slums and one yard in region (0,0): the downgrade condition holds. -/
def slumsWithYardGrid : Grid :=
  gridOf
    [ (⟨0, 0, 0, 0⟩, .slums), (⟨0, 0, 0, 1⟩, .slums), (⟨0, 0, 0, 2⟩, .slums),
      (⟨0, 0, 1, 0⟩, .slums), (⟨0, 0, 1, 1⟩, .yard) ]

/-! ### Claim theorems -/

/-- Claim C6 (confirmed).  The hotel candidate for a house is satisfied iff the
block's commercial count is at least 3 and its residential count is strictly
below 3; in particular with residential count exactly 3 the resolver never
applies the hotel upgrade, whatever the current tile. -/
theorem hotel_rule_strict_bound :
    (∀ (g : Grid) (pos : Position), g pos = some .house →
      (isSatisfied (getUpgradesForTile .house pos g .hotel) = true ↔
        3 ≤ countInSuperblock g pos.superblockRow pos.superblockCol .C ∧
        countInSuperblock g pos.superblockRow pos.superblockCol .R < 3))
    ∧ ∀ (g : Grid) (pos : Position) (t : Tile), g pos = some t →
        countInSuperblock g pos.superblockRow pos.superblockCol .R = 3 →
        selectUpgrade t pos g ≠ some .hotel := by
  constructor
  · intro g pos hg
    have hb : getUpgradesForTile .house pos g .hotel = residentialUpgrades pos g .hotel := rfl
    rw [hb]
    simp [residentialUpgrades, hg, isSatisfied, Nat.succ_le_iff]
  · intro g pos t hg hr3 hsel
    obtain ⟨-, hsat⟩ := selectUpgrade_inv hsel
    obtain ⟨-, -, hlt⟩ := hotel_satisfied hsat
    omega

/-- Witness for C6 at concrete boards: satisfied hotel candidate with C = 3 and
R = 1, and no hotel selected when R = 3. -/
theorem hotel_rule_strict_bound_witness :
    (isSatisfied (getUpgradesForTile .house ⟨0, 0, 1, 1⟩ hotelGrid .hotel) = true ↔
      3 ≤ countInSuperblock hotelGrid 0 0 .C ∧ countInSuperblock hotelGrid 0 0 .R < 3)
    ∧ selectUpgrade .house ⟨0, 0, 1, 1⟩ hotelBlockedGrid ≠ some .hotel :=
  ⟨hotel_rule_strict_bound.1 hotelGrid ⟨0, 0, 1, 1⟩ rfl,
    hotel_rule_strict_bound.2 hotelBlockedGrid ⟨0, 0, 1, 1⟩ .house rfl (by decide)⟩

/-- Claim C7 (confirmed).  A placement at an occupied cell, or with no category
available to draw, is rejected before any mutation: the result carries the
input state itself, so grid, score, turn counter and deck are all unchanged. -/
theorem placeTile_invalid_no_mutation :
    ∀ (fuel : Nat) (s : GameState) (pos : Position),
      s.grid pos ≠ none ∨ s.deck = [] →
      placeTile fuel s pos = .rejected s := by
  intro fuel s pos h
  cases hgp : s.grid pos with
  | some t => simp [placeTile, hgp]
  | none =>
    rcases h with h | h
    · exact absurd hgp h
    · simp [placeTile, hgp, h]

/-- Witness for C7: a placement on an occupied cell and a placement with an
empty deck are both rejected with the state unchanged. -/
theorem placeTile_invalid_no_mutation_witness :
    placeTile 5 ⟨hotelGrid, [.R], 7, 3⟩ ⟨0, 0, 1, 1⟩ = .rejected ⟨hotelGrid, [.R], 7, 3⟩
    ∧ placeTile 5 ⟨emptyGrid, [], 0, 0⟩ ⟨0, 0, 1, 1⟩ = .rejected ⟨emptyGrid, [], 0, 0⟩ :=
  ⟨placeTile_invalid_no_mutation 5 _ _ (Or.inl (by decide)),
    placeTile_invalid_no_mutation 5 _ _ (Or.inr rfl)⟩

/-- Claim C8 (confirmed).  When all 81 cells are occupied (whatever the tile
kinds), the terminal-state query reports true and every placement attempt is
rejected with no state change. -/
theorem full_board_terminal :
    ∀ (s : GameState), (∀ p, (s.grid p).isSome) →
      isGameOver s = true ∧
      ∀ (fuel : Nat) (pos : Position), placeTile fuel s pos = .rejected s := by
  intro s hfull
  constructor
  · have hf : allPositions.filter (fun p => (s.grid p).isSome) = allPositions :=
      List.filter_eq_self.mpr fun a _ => hfull a
    have hlen : cellsFilled s = 81 := by
      rw [cellsFilled, hf]
      rfl
    simp [isGameOver, hlen, TOTAL_CELLS]
  · intro fuel pos
    obtain ⟨t, ht⟩ := Option.isSome_iff_exists.mp (hfull pos)
    exact placeTile_invalid_no_mutation fuel s pos (Or.inl (by rw [ht]; exact Option.noConfusion))

/-- Witness for C8 on a fully occupied board. -/
theorem full_board_terminal_witness :
    isGameOver ⟨fullGrid, [.R], 0, 0⟩ = true
    ∧ placeTile 9 ⟨fullGrid, [.R], 0, 0⟩ ⟨1, 2, 0, 1⟩ = .rejected ⟨fullGrid, [.R], 0, 0⟩ :=
  ⟨(full_board_terminal ⟨fullGrid, [.R], 0, 0⟩ fun _ => rfl).1,
    (full_board_terminal ⟨fullGrid, [.R], 0, 0⟩ fun _ => rfl).2 9 ⟨1, 2, 0, 1⟩⟩

/-- Claim C10 (confirmed).  The four default kinds have no entry in the score
table and missing entries are applied as 0, so the slums round-trip (4 cells to
slums and back to house) nets -24 instead of restoring the pre-slums score:
after the 4th residential placement the score is -24, and after the leisure
placement reverts all 4 slums to houses it is still -24. -/
theorem slums_revert_scores_zero :
    upgradeScores .house = none ∧ upgradeScores .yard = none ∧
    upgradeScores .shop = none ∧ upgradeScores .school = none ∧
    (upgradeScores .house).getD 0 = 0 ∧
    ((playSeq 300 ⟨threeHousesGrid, [.R, .L], 0, 0⟩ [⟨0, 0, 1, 0⟩]).map fun s =>
        (s.grid ⟨0, 0, 1, 0⟩, s.score)) = some (some .slums, -24) ∧
    ((playSeq 300 ⟨threeHousesGrid, [.R, .L], 0, 0⟩ [⟨0, 0, 1, 0⟩, ⟨0, 0, 1, 1⟩]).map fun s =>
        (s.grid ⟨0, 0, 1, 0⟩, s.score)) = some (some .house, -24) :=
  ⟨rfl, rfl, rfl, rfl, rfl, rfl, rfl⟩

/-- Claim C3 (confirmed).  When the cascade engine applies a change it
overwrites the cell with the new kind, adds the new kind's point delta to the
score, clears the entire pass-scoped visited set, and enqueues exactly the
changed position itself, its up-to-4 orthogonal neighbors, all 9 cells of its
own superblock and all cells of every orthogonally adjacent superblock (after
the remainder of the old queue). -/
theorem cascade_change_step_spec :
    (∀ (fuel : Nat) (g : Grid) (score : Int) (cnt : Nat) (pos : Position)
        (rest vis : List Position) (t k : Tile),
        g pos = some t → selectUpgrade t pos g = some k → pos ∉ vis →
        cnt < MAX_UPGRADES →
        rebuildLoop (fuel + 1) g score cnt (pos :: rest) vis =
          rebuildLoop fuel (setCell g pos (some k)) (score + (upgradeScores k).getD 0)
            (cnt + 1) (rest ++ cascadeEnqueue pos) [])
    ∧ ∀ pos p : Position,
        p ∈ cascadeEnqueue pos ↔
          p = pos ∨ p ∈ adjacentPositions pos ∨
          (p.superblockRow = pos.superblockRow ∧ p.superblockCol = pos.superblockCol) ∨
          (p.superblockRow, p.superblockCol) ∈
            getAdjacentSuperblocks pos.superblockRow pos.superblockCol := by
  constructor
  · intro fuel g score cnt pos rest vis t k hg hsel hmem hcnt
    simp only [rebuildLoop]
    rw [if_neg (Nat.not_le.mpr hcnt), if_neg hmem]
    simp only [hg, hsel]
  · intro pos p
    simp only [cascadeEnqueue, List.mem_append, List.mem_flatMap, List.mem_singleton,
      mem_superblockPositions]
    constructor
    · rintro (((ha | ⟨hr, hc⟩) | ⟨sb, hsb, hr, hc⟩) | rfl)
      · exact Or.inr (Or.inl ha)
      · exact Or.inr (Or.inr (Or.inl ⟨hr, hc⟩))
      · refine Or.inr (Or.inr (Or.inr ?_))
        rw [hr, hc]
        simpa using hsb
      · exact Or.inl rfl
    · rintro (rfl | ha | ⟨hr, hc⟩ | hadj)
      · exact Or.inr rfl
      · exact Or.inl (Or.inl (Or.inl ha))
      · exact Or.inl (Or.inl (Or.inr ⟨hr, hc⟩))
      · exact Or.inl (Or.inr ⟨(p.superblockRow, p.superblockCol), hadj, rfl, rfl⟩)

/-- Witness for C3: one change step on a board of four houses (the resolver
turns the popped house into slums), plus the enqueue characterization at a
concrete pair of positions. -/
theorem cascade_change_step_spec_witness :
    rebuildLoop 6 fourHousesGrid 0 0 [⟨0, 0, 0, 0⟩] [] =
      rebuildLoop 5 (setCell fourHousesGrid ⟨0, 0, 0, 0⟩ (some .slums))
        (0 + (upgradeScores .slums).getD 0) 1 ([] ++ cascadeEnqueue ⟨0, 0, 0, 0⟩) []
    ∧ (⟨0, 1, 2, 2⟩ ∈ cascadeEnqueue ⟨0, 0, 0, 0⟩ ↔
        (⟨0, 1, 2, 2⟩ : Position) = ⟨0, 0, 0, 0⟩ ∨
        (⟨0, 1, 2, 2⟩ : Position) ∈ adjacentPositions ⟨0, 0, 0, 0⟩ ∨
        ((0 : Fin 3) = 0 ∧ (1 : Fin 3) = 0) ∨
        ((0 : Fin 3), (1 : Fin 3)) ∈ getAdjacentSuperblocks 0 0) :=
  ⟨cascade_change_step_spec.1 5 fourHousesGrid 0 0 ⟨0, 0, 0, 0⟩ [] [] .house .slums
      rfl (by rfl) (by decide) (by decide),
    cascade_change_step_spec.2 ⟨0, 0, 0, 0⟩ ⟨0, 1, 2, 2⟩⟩

/-- Claim C9 (confirmed).  Every change applied by the cascade preserves the
cell's base category, so after a successful placement every previously occupied
cell still holds a tile of its old category, and the placed cell holds a tile
of the drawn category. -/
theorem categories_preserved_forever :
    ∀ (fuel : Nat) (s : GameState) (pos : Position) (s2 : GameState)
      (vis : List Position),
      placeTile fuel s pos = .placed s2 vis →
      (∀ p t0, s.grid p = some t0 →
        (s2.grid p).map tileToCategory = some (tileToCategory t0))
      ∧ ∀ c rest, s.deck = c :: rest →
          (s2.grid pos).map tileToCategory = some c := by
  intro fuel s pos s2 vis h
  cases hgp : s.grid pos with
  | some t => simp [placeTile, hgp] at h
  | none =>
    cases hdk : s.deck with
    | nil => simp [placeTile, hgp, hdk] at h
    | cons c0 rest0 =>
      simp only [placeTile, hgp, hdk] at h
      rw [runRebuildPhase] at h
      cases hrb : rebuildLoop fuel (setCell s.grid pos (some (categoryToDefaultTile c0)))
          s.score 0 (superblockPositions pos.superblockRow pos.superblockCol) [] with
      | none => rw [hrb] at h; exact absurd h (by simp)
      | some res =>
        rw [hrb] at h
        cases res with
        | fatal g2 sc2 => simp at h
        | ok g2 sc2 vis2 =>
          simp only [PlaceResult.placed.injEq] at h
          obtain ⟨rfl, rfl⟩ := h
          have hpres := rebuildLoop_preserves_category fuel _ s.score 0 _ [] _ hrb
          constructor
          · intro p t0 hp
            have hpp : p ≠ pos := by
              intro hc
              rw [hc, hgp] at hp
              exact Option.noConfusion hp
            obtain ⟨t1, h1, h2⟩ := hpres p t0 (by simp [setCell, hpp, hp])
            rw [show (⟨g2, rest0, sc2, s.turn + 1⟩ : GameState).grid = g2 from rfl]
            rw [show resultGrid (.ok g2 sc2 vis2) = g2 from rfl] at h1
            rw [h1]
            simp [h2]
          · intro c rest hdeck
            have hc : c0 = c := (List.cons.inj hdeck).1
            obtain ⟨t1, h1, h2⟩ := hpres pos (categoryToDefaultTile c0) (by simp [setCell])
            rw [show (⟨g2, rest0, sc2, s.turn + 1⟩ : GameState).grid = g2 from rfl]
            rw [show resultGrid (.ok g2 sc2 vis2) = g2 from rfl] at h1
            rw [h1]
            simp only [Option.map_some']
            rw [h2, ← hc]
            cases c0 <;> rfl

/-- Witness for C9: placing a residential tile next to nothing keeps the
pre-existing yard in the leisure category and yields a residential cell. -/
theorem categories_preserved_forever_witness :
    ((⟨setCell oneYardGrid ⟨0, 0, 2, 2⟩ (some .house), [], 0, 1⟩ : GameState).grid
        ⟨0, 0, 0, 0⟩).map tileToCategory = some .L
    ∧ ((⟨setCell oneYardGrid ⟨0, 0, 2, 2⟩ (some .house), [], 0, 1⟩ : GameState).grid
        ⟨0, 0, 2, 2⟩).map tileToCategory = some .R :=
  ⟨(categories_preserved_forever 100 ⟨oneYardGrid, [.R], 0, 0⟩ ⟨0, 0, 2, 2⟩ _ _
      (by rfl)).1 ⟨0, 0, 0, 0⟩ .yard rfl,
    (categories_preserved_forever 100 ⟨oneYardGrid, [.R], 0, 0⟩ ⟨0, 0, 2, 2⟩ _ _
      (by rfl)).2 .R [] rfl⟩

/-- Counterexample to claim C2 as stated: at `parkEligibleGrid` the center yard
is simultaneously eligible for Sports and Playground, yet the resolver applies
Park, which precedes both in the priority order — the cell does not become
Sports. -/
theorem sports_playground_park_cex :
    parkEligibleGrid ⟨0, 0, 1, 1⟩ = some .yard
    ∧ isSatisfied (getUpgradesForTile .yard ⟨0, 0, 1, 1⟩ parkEligibleGrid .sports) = true
    ∧ isSatisfied (getUpgradesForTile .yard ⟨0, 0, 1, 1⟩ parkEligibleGrid .playground) = true
    ∧ selectUpgrade .yard ⟨0, 0, 1, 1⟩ parkEligibleGrid = some .park :=
  ⟨rfl, rfl, rfl, rfl⟩

/-- Claim C2 (amended).  The resolver walks exactly the fixed total order
highrise, park, bank, university, tier2, shopping center, restaurant, plaza,
cinema, high school, villa, hotel, sports, playground, house (the downgrade
target), slums, skipping the entry equal to the current kind and applying the
first satisfied candidate; consequently a cell simultaneously eligible for
Sports and Playground never becomes Playground (Sports wins between the two),
though a higher-priority satisfied candidate such as Park may still be chosen
instead of Sports. -/
theorem upgrade_priority_order_exact :
    upgradePriority =
      [ .highrise, .park, .bank, .university, .tier2_residential, .shopping_center,
        .restaurant, .plaza, .cinema, .highschool, .villa, .hotel, .sports, .playground,
        .house, .slums ]
    ∧ ∀ (g : Grid) (pos : Position) (t : Tile), g pos = some t →
        isSatisfied (getUpgradesForTile t pos g .sports) = true →
        selectUpgrade t pos g ≠ some .playground := by
  refine ⟨rfl, ?_⟩
  intro g pos t hg hsat h
  have hyard : g pos = some .yard := by
    have hp := List.find?_some h
    simp only [Bool.and_eq_true] at hp
    exact playground_satisfied hp.2
  have ht : t = .yard := by
    rw [hg] at hyard
    exact Option.some.inj hyard
  subst ht
  rw [selectUpgrade,
    show upgradePriority =
      ([.highrise, .park, .bank, .university, .tier2_residential, .shopping_center,
        .restaurant, .plaza, .cinema, .highschool, .villa, .hotel] : List Tile) ++
        .sports :: [.playground, .house, .slums] from rfl,
    List.find?_append] at h
  cases hfirst : List.find?
      (fun u => u != Tile.yard && isSatisfied (getUpgradesForTile .yard pos g u))
      [.highrise, .park, .bank, .university, .tier2_residential, .shopping_center,
        .restaurant, .plaza, .cinema, .highschool, .villa, .hotel] with
  | some x =>
    rw [hfirst] at h
    simp only [Option.or] at h
    have hx : x = .playground := Option.some.inj h
    subst hx
    exact absurd (List.mem_of_find?_eq_some hfirst) (by decide)
  | none =>
    rw [hfirst, Option.none_or] at h
    rw [List.find?_cons_of_pos _ (by simp [hsat])] at h
    exact absurd (Option.some.inj h) (by decide)

/-- Witness for the amended C2: at the park board the resolver does not return
playground even though sports and playground are both satisfied. -/
theorem upgrade_priority_order_exact_witness :
    selectUpgrade .yard ⟨0, 0, 1, 1⟩ parkEligibleGrid ≠ some .playground :=
  upgrade_priority_order_exact.2 parkEligibleGrid ⟨0, 0, 1, 1⟩ .yard rfl rfl

/-- Counterexample to claim C5 as stated: at `bankPreemptGrid` the shop at
(0,0,0,0) has a 3-cell commercial cluster touching the road and no adjacent
shopping center, so the shopping-center rule is satisfied, yet the cell becomes
a bank (4 tier-2 residential in the adjacent region) because bank precedes
shopping center in the priority order. -/
theorem shopping_center_bank_preemption_cex :
    bankPreemptGrid ⟨0, 0, 0, 0⟩ = some .shop
    ∧ hasAdjacentShoppingCenter bankPreemptGrid ⟨0, 0, 0, 0⟩ = false
    ∧ findConnectedCommercialCluster ⟨0, 0, 0, 0⟩ bankPreemptGrid = (3, true)
    ∧ isSatisfied
        (getUpgradesForTile .shop ⟨0, 0, 0, 0⟩ bankPreemptGrid .shopping_center) = true
    ∧ selectUpgrade .shop ⟨0, 0, 0, 0⟩ bankPreemptGrid = some .bank :=
  ⟨rfl, rfl, rfl, rfl, rfl⟩

/-- For a shop, every priority entry before shopping center other than bank
(highrise, park, university, tier-2) has no candidate in the commercial family,
so when the shopping-center candidate is satisfied and the bank candidate is
not, the resolver selects shopping center. -/
theorem selectUpgrade_shop_shopping_center {pos : Position} {g : Grid}
    (hsat : isSatisfied (getUpgradesForTile .shop pos g .shopping_center) = true)
    (hbank : isSatisfied (getUpgradesForTile .shop pos g .bank) = false) :
    selectUpgrade .shop pos g = some .shopping_center := by
  rw [selectUpgrade]
  simp only [upgradePriority]
  rw [List.find?_cons_of_neg _ Bool.false_ne_true,
    List.find?_cons_of_neg _ Bool.false_ne_true,
    List.find?_cons_of_neg _ (by simp [hbank]),
    List.find?_cons_of_neg _ Bool.false_ne_true,
    List.find?_cons_of_neg _ Bool.false_ne_true,
    List.find?_cons_of_pos _ (by simp [hsat])]

/-- For a shop, bank is the first priority entry with a candidate in the
commercial family, so a satisfied bank candidate is what the resolver selects. -/
theorem selectUpgrade_shop_bank {pos : Position} {g : Grid}
    (hbank : isSatisfied (getUpgradesForTile .shop pos g .bank) = true) :
    selectUpgrade .shop pos g = some .bank := by
  rw [selectUpgrade]
  simp only [upgradePriority]
  rw [List.find?_cons_of_neg _ Bool.false_ne_true,
    List.find?_cons_of_neg _ Bool.false_ne_true,
    List.find?_cons_of_pos _ (by simp [hbank])]

/-- Claim C5 (amended).  For a shop with no orthogonally adjacent shopping
center: a connected same-category cluster of size 2 never satisfies the
shopping-center rule and the resolver never selects shopping center for the
cell; a cluster of size 3 one of whose members is an edge cell satisfies the
rule, and when the resolver evaluates the cell it selects shopping center
unless the higher-priority bank candidate is also satisfied, in which case it
selects bank; and the adjacent-existing-shopping-center disjunct alone
satisfies the rule.  (Whether a given rebuild phase actually evaluates the
cell is a separate matter: the cascade only examines enqueued cells, see
`rebuild_not_global_fixed_point_cex`.) -/
theorem shopping_center_cluster_rule :
    (∀ (g : Grid) (pos : Position), g pos = some .shop →
      hasAdjacentShoppingCenter g pos = false →
      (findConnectedCommercialCluster pos g).1 = 2 →
      (findConnectedCommercialCluster pos g).2 = true →
      isSatisfied (getUpgradesForTile .shop pos g .shopping_center) = false ∧
        selectUpgrade .shop pos g ≠ some .shopping_center)
    ∧ (∀ (g : Grid) (pos : Position), g pos = some .shop →
        (findConnectedCommercialCluster pos g).1 = 3 →
        (∃ q ∈ clusterVisited pos g, isNearRoad q = true) →
        isSatisfied (getUpgradesForTile .shop pos g .shopping_center) = true
        ∧ (isSatisfied (getUpgradesForTile .shop pos g .bank) = false →
            selectUpgrade .shop pos g = some .shopping_center)
        ∧ (isSatisfied (getUpgradesForTile .shop pos g .bank) = true →
            selectUpgrade .shop pos g = some .bank))
    ∧ ∀ (g : Grid) (pos : Position), g pos = some .shop →
        hasAdjacentShoppingCenter g pos = true →
        isSatisfied (getUpgradesForTile .shop pos g .shopping_center) = true := by
  refine ⟨?_, ?_, ?_⟩
  · intro g pos hg hadj hsize htouch
    have hb : getUpgradesForTile .shop pos g .shopping_center =
        commercialUpgrades pos g .shopping_center := rfl
    constructor
    · rw [hb]
      simp [commercialUpgrades, hg, isSatisfied, hadj, hsize]
    · intro hsel
      obtain ⟨-, hsat⟩ := selectUpgrade_inv hsel
      rw [hb] at hsat
      simp [commercialUpgrades, hg, isSatisfied, hadj, hsize] at hsat
  · intro g pos hg hsize htouch
    have hb : getUpgradesForTile .shop pos g .shopping_center =
        commercialUpgrades pos g .shopping_center := rfl
    have hroad : (findConnectedCommercialCluster pos g).2 = true := by
      obtain ⟨q, hq, hr⟩ := htouch
      exact List.any_eq_true.mpr ⟨q, hq, hr⟩
    have hsat : isSatisfied (getUpgradesForTile .shop pos g .shopping_center) = true := by
      rw [hb]
      simp [commercialUpgrades, hg, isSatisfied, hsize, hroad]
    exact ⟨hsat, fun hbank => selectUpgrade_shop_shopping_center hsat hbank,
      fun hbank => selectUpgrade_shop_bank hbank⟩
  · intro g pos hg hadj
    have hb : getUpgradesForTile .shop pos g .shopping_center =
        commercialUpgrades pos g .shopping_center := rfl
    rw [hb]
    simp [commercialUpgrades, hg, isSatisfied, hadj]

/-- Witness for the amended C5 at concrete boards: a 2-shop edge cluster leaves
the rule unsatisfied and the resolver idle; a 3-shop edge cluster satisfies the
rule and the resolver selects shopping center there (no bank candidate holds),
while on the bank-preemption board it selects bank; a shop next to an existing
shopping center satisfies the rule. -/
theorem shopping_center_cluster_rule_witness :
    (isSatisfied (getUpgradesForTile .shop ⟨0, 0, 0, 0⟩ twoShopsGrid .shopping_center) = false
      ∧ selectUpgrade .shop ⟨0, 0, 0, 0⟩ twoShopsGrid ≠ some .shopping_center)
    ∧ isSatisfied (getUpgradesForTile .shop ⟨0, 0, 0, 0⟩ threeShopsGrid .shopping_center) = true
    ∧ selectUpgrade .shop ⟨0, 0, 0, 0⟩ threeShopsGrid = some .shopping_center
    ∧ selectUpgrade .shop ⟨0, 0, 0, 0⟩ bankPreemptGrid = some .bank
    ∧ isSatisfied (getUpgradesForTile .shop ⟨0, 0, 0, 1⟩ nextToMallGrid .shopping_center) = true :=
  ⟨shopping_center_cluster_rule.1 twoShopsGrid ⟨0, 0, 0, 0⟩ rfl rfl rfl rfl,
    (shopping_center_cluster_rule.2.1 threeShopsGrid ⟨0, 0, 0, 0⟩ rfl rfl
      ⟨⟨0, 0, 0, 0⟩, by decide, by decide⟩).1,
    (shopping_center_cluster_rule.2.1 threeShopsGrid ⟨0, 0, 0, 0⟩ rfl rfl
      ⟨⟨0, 0, 0, 0⟩, by decide, by decide⟩).2.1 rfl,
    (shopping_center_cluster_rule.2.1 bankPreemptGrid ⟨0, 0, 0, 0⟩ rfl rfl
      ⟨⟨0, 0, 0, 0⟩, by decide, by decide⟩).2.2 rfl,
    shopping_center_cluster_rule.2.2 nextToMallGrid ⟨0, 0, 0, 1⟩ rfl rfl⟩

/-- Deck for the C1 counterexample run: one yard, two shops and six houses in
region (0,0), then one yard and four houses in region (0,1). -/
def fixedPointCexDeck : List BaseCategory :=
  [.L, .C, .C, .R, .R, .R, .R, .R, .R, .L, .R, .R, .R, .R]

/-- Placement sequence for the C1 counterexample: build region (0,0) with a
center yard, an adjacent shop pair and six edge houses (all stable), then fill
region (0,1) with a center yard and four edge houses.  The final house brings
the restaurant rule's residential total for the shops in region (0,0) to 10,
but the rebuild phase of that placement only examines region (0,1). -/
def fixedPointCexMoves : List Position :=
  [ ⟨0, 0, 1, 1⟩, ⟨0, 0, 2, 0⟩, ⟨0, 0, 2, 1⟩, ⟨0, 0, 0, 0⟩, ⟨0, 0, 0, 1⟩,
    ⟨0, 0, 0, 2⟩, ⟨0, 0, 1, 0⟩, ⟨0, 0, 1, 2⟩, ⟨0, 0, 2, 2⟩,
    ⟨0, 1, 1, 1⟩, ⟨0, 1, 0, 0⟩, ⟨0, 1, 0, 1⟩, ⟨0, 1, 0, 2⟩, ⟨0, 1, 1, 0⟩ ]

/-- Counterexample to claim C1 as stated: starting from the empty board, every
placement in `fixedPointCexMoves` completes non-fatally (the run returns
`some`), yet after the last placement the occupied shop at (0,0,2,0) has a
satisfied candidate in the resolver's order (restaurant: an adjacent commercial
cell and 10 residential over its own and adjacent regions).  The final rebuild
phase seeded only region (0,1), so the shop was never re-examined: the board is
not at a global fixed point of the resolver. -/
theorem rebuild_not_global_fixed_point_cex :
    ((playSeq 300 ⟨emptyGrid, fixedPointCexDeck, 0, 0⟩ fixedPointCexMoves).map fun s =>
        (s.grid ⟨0, 0, 2, 0⟩, selectUpgrade .shop ⟨0, 0, 2, 0⟩ s.grid, s.turn)) =
      some (some .shop, some .restaurant, 14) := by
  rfl

/-- Claim C1 (amended).  After a placement that completes non-fatally, every
position in the rebuild phase's final visited set is at a fixed point of the
resolver with respect to the final board (empty, or no candidate in the
priority order with all conditions true).  Cells outside that set — in
particular cells of regions that were never enqueued — may still have a
satisfied candidate, as `rebuild_not_global_fixed_point_cex` shows. -/
theorem rebuild_fixed_point_on_visited :
    ∀ (fuel : Nat) (s : GameState) (pos : Position) (s2 : GameState)
      (vis : List Position),
      placeTile fuel s pos = .placed s2 vis →
      ∀ p ∈ vis, ∀ t, s2.grid p = some t → selectUpgrade t p s2.grid = none := by
  intro fuel s pos s2 vis h
  cases hgp : s.grid pos with
  | some t => simp [placeTile, hgp] at h
  | none =>
    cases hdk : s.deck with
    | nil => simp [placeTile, hgp, hdk] at h
    | cons c0 rest0 =>
      simp only [placeTile, hgp, hdk] at h
      rw [runRebuildPhase] at h
      cases hrb : rebuildLoop fuel (setCell s.grid pos (some (categoryToDefaultTile c0)))
          s.score 0 (superblockPositions pos.superblockRow pos.superblockCol) [] with
      | none => rw [hrb] at h; exact absurd h (by simp)
      | some res =>
        rw [hrb] at h
        cases res with
        | fatal g2 sc2 => simp at h
        | ok g2 sc2 vis2 =>
          simp only [PlaceResult.placed.injEq] at h
          obtain ⟨rfl, rfl⟩ := h
          exact rebuildLoop_ok_stable fuel _ s.score 0 _ [] g2 sc2 vis2 hrb
            (by intro p hp; simp at hp)

/-- Witness for the amended C1: placing a house in the middle of the empty
board visits all 9 cells of its region; the placed house itself is in the
visited set and indeed has no selected upgrade afterwards. -/
theorem rebuild_fixed_point_on_visited_witness :
    selectUpgrade .house ⟨0, 0, 1, 1⟩ (setCell emptyGrid ⟨0, 0, 1, 1⟩ (some .house)) = none :=
  rebuild_fixed_point_on_visited 100 ⟨emptyGrid, [.R], 0, 0⟩ ⟨0, 0, 1, 1⟩
    ⟨setCell emptyGrid ⟨0, 0, 1, 1⟩ (some .house), [], 0, 1⟩
    [⟨0, 0, 2, 2⟩, ⟨0, 0, 2, 1⟩, ⟨0, 0, 2, 0⟩, ⟨0, 0, 1, 2⟩, ⟨0, 0, 1, 1⟩,
      ⟨0, 0, 1, 0⟩, ⟨0, 0, 0, 2⟩, ⟨0, 0, 0, 1⟩, ⟨0, 0, 0, 0⟩]
    (by rfl) ⟨0, 0, 1, 1⟩ (by decide) .house rfl

/-- Counterexample to claim C4 as stated: region (0,0) contains exactly 3
houses; the 4th residential tile is placed at the region center, all 4 become
slums with score -24 (the claimed first phase holds), but after the leisure
tile is placed adjacent to the center the reverted center house immediately
upgrades further to a villa — not all 4 slums cells end as the default
residential kind. -/
theorem slums_round_trip_villa_cex :
    ((playSeq 300 ⟨threeHousesGrid, [.R, .L], 0, 0⟩ [⟨0, 0, 1, 1⟩]).map fun s =>
        (s.grid ⟨0, 0, 0, 0⟩, s.grid ⟨0, 0, 0, 1⟩, s.grid ⟨0, 0, 0, 2⟩,
         s.grid ⟨0, 0, 1, 1⟩, s.score)) =
      some (some .slums, some .slums, some .slums, some .slums, -24)
    ∧ ((playSeq 300 ⟨threeHousesGrid, [.R, .L], 0, 0⟩ [⟨0, 0, 1, 1⟩, ⟨0, 0, 1, 0⟩]).map
          fun s => (s.grid ⟨0, 0, 1, 1⟩, s.score)) =
      some (some .villa, -6) :=
  ⟨rfl, rfl⟩

/-- Claim C4 (amended).  On the board whose region (0,0) holds exactly 3 houses
(all on the region edge), placing the 4th residential tile on the edge turns
all 4 cells into slums with total score -24; the subsequent leisure placement
at the center reverts all 4 slums to houses (score stays -24).  In general the
slums downgrade candidate is satisfied iff the region's leisure count or
education count is positive; a reverted house may however immediately satisfy
a further upgrade (villa), as `slums_round_trip_villa_cex` shows, so the
all-houses outcome needs the four cells to stay ineligible (here: near road). -/
theorem slums_round_trip_spec :
    ((playSeq 300 ⟨threeHousesGrid, [.R, .L], 0, 0⟩ [⟨0, 0, 1, 0⟩]).map fun s =>
        (s.grid ⟨0, 0, 0, 0⟩, s.grid ⟨0, 0, 0, 1⟩, s.grid ⟨0, 0, 0, 2⟩,
         s.grid ⟨0, 0, 1, 0⟩, s.score)) =
      some (some .slums, some .slums, some .slums, some .slums, -24)
    ∧ ((playSeq 300 ⟨threeHousesGrid, [.R, .L], 0, 0⟩ [⟨0, 0, 1, 0⟩, ⟨0, 0, 1, 1⟩]).map
          fun s =>
        (s.grid ⟨0, 0, 0, 0⟩, s.grid ⟨0, 0, 0, 1⟩, s.grid ⟨0, 0, 0, 2⟩,
         s.grid ⟨0, 0, 1, 0⟩, s.grid ⟨0, 0, 1, 1⟩, s.score)) =
      some (some .house, some .house, some .house, some .house, some .yard, -24)
    ∧ ∀ (g : Grid) (pos : Position), g pos = some .slums →
        (isSatisfied (getUpgradesForTile .slums pos g .house) = true ↔
          0 < countInSuperblock g pos.superblockRow pos.superblockCol .L ∨
          0 < countInSuperblock g pos.superblockRow pos.superblockCol .E) := by
  refine ⟨rfl, rfl, ?_⟩
  intro g pos hg
  have hb : getUpgradesForTile .slums pos g .house = slumsDowngrade pos g .house := rfl
  rw [hb]
  simp [slumsDowngrade, hg, isSatisfied]

/-- Witness for the amended C4's downgrade characterization: on the board of 4
slums plus one yard the downgrade candidate is satisfied and leisure is
present. -/
theorem slums_round_trip_spec_witness :
    isSatisfied (getUpgradesForTile .slums ⟨0, 0, 0, 0⟩ slumsWithYardGrid .house) = true ↔
      0 < countInSuperblock slumsWithYardGrid 0 0 .L ∨
      0 < countInSuperblock slumsWithYardGrid 0 0 .E :=
  slums_round_trip_spec.2.2 slumsWithYardGrid ⟨0, 0, 0, 0⟩ rfl

end Barcelona
